import Mathlib

/-
Verification of the geometry projector and UI-state logic of
`src/routes/sections/BuildingInsightsSection.svelte` (js-solar-potential).

The component's numeric computations run on JavaScript numbers; they are
embedded here over exact rationals (ℚ).  The spherical-geometry primitives of
the mapping SDK (`computeOffset`, `computeHeading`, `computeDistanceBetween`)
and the transcendental `Math` functions (`sqrt`, `atan2`, `sin`, `cos`, and the
conversion constants `180 / Math.PI` and `Math.PI / 180`) are external
collaborators; they are abstracted as fields of a `Geo` parameter structure,
so every definition below is computable and the theorems hold for every
interpretation of those primitives.
-/

namespace BuildingInsightsSection

/-- Geographic point (`google.maps.LatLngLiteral`): `{ lat, lng }`. -/
structure LatLng where
  lat : ℚ
  lng : ℚ
deriving DecidableEq, Repr

/-- Panel orientation: the API value is the string `'PORTRAIT'` or `'LANDSCAPE'`. -/
inductive Orientation where
  | portrait
  | landscape
deriving DecidableEq, Repr

/-- A solar panel from the building-insights response
(`solarPotential.solarPanels` entries): geographic center, orientation,
segment index and yearly DC energy yield. -/
structure SolarPanel where
  center : LatLng
  orientation : Orientation
  segmentIndex : ℕ
  yearlyEnergyDcKwh : ℚ
deriving DecidableEq, Repr

/-- A roof segment statistic (`solarPotential.roofSegmentStats` entries);
only the fields the component reads are embedded. -/
structure RoofSegmentStat where
  center : LatLng
  azimuthDegrees : ℚ
deriving DecidableEq, Repr

/-- A panel-count configuration (`solarPotential.solarPanelConfigs` entries). -/
structure SolarPanelConfig where
  panelsCount : ℕ
  yearlyEnergyDcKwh : ℚ
deriving DecidableEq, Repr

/-- The `solarPotential` part of a building-insights response; only the fields
the component reads are embedded. -/
structure SolarPotential where
  panelWidthMeters : ℚ
  panelHeightMeters : ℚ
  panelCapacityWatts : ℚ
  solarPanels : List SolarPanel
  roofSegmentStats : List RoofSegmentStat
  solarPanelConfigs : List SolarPanelConfig
deriving DecidableEq, Repr

/-- The error payload of a failed `findClosestBuilding` call. -/
structure RequestError where
  code : ℤ
  status : String
  message : String
deriving DecidableEq, Repr

/-- The external primitives used by the component: the mapping SDK's spherical
geometry library and the `Math` builtins.  `degPerRad` stands for
`180 / Math.PI` and `radPerDeg` for `Math.PI / 180`. -/
structure Geo where
  sqrt : ℚ → ℚ
  atan2 : ℚ → ℚ → ℚ
  sin : ℚ → ℚ
  cos : ℚ → ℚ
  degPerRad : ℚ
  radPerDeg : ℚ
  computeOffset : LatLng → ℚ → ℚ → LatLng
  computeHeading : LatLng → LatLng → ℚ
  computeDistanceBetween : LatLng → LatLng → ℚ

/-- A trivial interpretation of the external primitives, used to instantiate
universally quantified theorems at a concrete input. -/
def trivGeo : Geo where
  sqrt := fun _ => 0
  atan2 := fun _ _ => 0
  sin := fun _ => 0
  cos := fun _ => 0
  degPerRad := 0
  radPerDeg := 0
  computeOffset := fun c _ _ => c
  computeHeading := fun _ _ => 0
  computeDistanceBetween := fun _ _ => 0

/-! ## Color index (claim C3) -/

/-- Modelled from the spec: `clamp` from `src/visualize.ts` (that file is not
under `src/`); clamp `x` into the interval `[lo, hi]`. -/
def clamp (x lo hi : ℚ) : ℚ := min (max x lo) hi

/-- Modelled from the spec: `normalize` from `src/visualize.ts` (that file is
not under `src/`): "normalize to [0,1] linearly (`(value - min) / (max - min)`,
clamped to the domain)".  Argument order follows the call site
`normalize(value, max, min)`. -/
def normalize (x mx mn : ℚ) : ℚ := clamp ((x - mn) / (mx - mn)) 0 1

/-- JavaScript `Math.round`: round half away from minus infinity. -/
def jsRound (x : ℚ) : ℤ := ⌊x + 1 / 2⌋

/-- Line 186:
`Math.round(normalize(panel.yearlyEnergyDcKwh, maxEnergy, minEnergy) * 255)`. -/
def colorIndex (v mx mn : ℚ) : ℤ := jsRound (normalize v mx mn * 255)

/-- Claim C3: for every value `v` with `mn ≤ v ≤ mx` and `mn < mx`, the color
index `round(normalize(v, mx, mn) * 255)` lies within `[0, 255]`; the index of
`v = mn` is `0` and the index of `v = mx` is `255` after rounding. -/
theorem claim_C3_color_index (v mx mn : ℚ) (h1 : mn ≤ v) (h2 : v ≤ mx) (h3 : mn < mx) :
    (0 ≤ colorIndex v mx mn ∧ colorIndex v mx mn ≤ 255) ∧
      colorIndex mn mx mn = 0 ∧ colorIndex mx mx mn = 255 := by
  have hd : (0 : ℚ) < mx - mn := by linarith
  have hr0 : 0 ≤ (v - mn) / (mx - mn) := div_nonneg (by linarith) (le_of_lt hd)
  have hr1 : (v - mn) / (mx - mn) ≤ 1 := by
    rw [div_le_one hd]; linarith
  have hnorm : normalize v mx mn = (v - mn) / (mx - mn) := by
    unfold normalize clamp
    rw [max_eq_left hr0, min_eq_left hr1]
  refine ⟨⟨?_, ?_⟩, ?_, ?_⟩
  · unfold colorIndex jsRound
    rw [hnorm]
    have : (0 : ℚ) ≤ (v - mn) / (mx - mn) * 255 + 1 / 2 := by nlinarith
    exact_mod_cast Int.le_floor.mpr (by push_cast; linarith)
  · unfold colorIndex jsRound
    rw [hnorm]
    have hlt : (v - mn) / (mx - mn) * 255 + 1 / 2 < 256 := by nlinarith
    have := Int.floor_lt.mpr (show (v - mn) / (mx - mn) * 255 + 1 / 2 < ((256 : ℤ) : ℚ) by push_cast; linarith)
    omega
  · have : normalize mn mx mn = 0 := by
      unfold normalize clamp
      rw [sub_self, zero_div, max_self, min_eq_left (by norm_num : (0 : ℚ) ≤ 1)]
    unfold colorIndex jsRound
    rw [this]
    norm_num
  · have : normalize mx mx mn = 1 := by
      unfold normalize clamp
      rw [div_self hd.ne', max_eq_left (by norm_num : (0 : ℚ) ≤ 1), min_self]
    unfold colorIndex jsRound
    rw [this]
    rw [show (1 : ℚ) * 255 + 1 / 2 = 511 / 2 by norm_num]
    rw [Int.floor_eq_iff]
    constructor
    · push_cast; norm_num
    · push_cast; norm_num

/-- Witness for claim C3 at `v = 1`, `mx = 2`, `mn = 0`. -/
theorem claim_C3_color_index_witness :
    ((0 : ℚ) ≤ 1 ∧ (1 : ℚ) ≤ 2 ∧ (0 : ℚ) < 2) ∧
      ((0 ≤ colorIndex 1 2 0 ∧ colorIndex 1 2 0 ≤ 255) ∧
        colorIndex 0 2 0 = 0 ∧ colorIndex 2 2 0 = 255) :=
  ⟨⟨by norm_num, by norm_num, by norm_num⟩,
    claim_C3_color_index 1 2 0 (by norm_num) (by norm_num) (by norm_num)⟩

/-! ## Azimuth lookup (claim C4) -/

/-- Lines 184-186 and 219: the azimuth lookup
`solarPotential.roofSegmentStats[panel.segmentIndex].azimuthDegrees`.  The
source performs the indexing with no bounds guard (out-of-range JS indexing
yields `undefined` and the field access then throws); the embedding is the
guarded, `Option`-returning form. -/
def azimuthLookup (stats : List RoofSegmentStat) (segmentIndex : ℕ) : Option ℚ :=
  (stats.get? segmentIndex).map (fun s => s.azimuthDegrees)

/-- Claim C4: for every panel whose `segmentIndex` is a valid index into
`roofSegmentStats` the azimuth lookup succeeds, and under a violated invariant
(out-of-range index) the error branch of the guarded embedding is reached. -/
theorem claim_C4_azimuth_lookup (stats : List RoofSegmentStat) (i : ℕ) :
    (i < stats.length → (azimuthLookup stats i).isSome = true) ∧
      (stats.length ≤ i → azimuthLookup stats i = none) := by
  constructor
  · intro h
    unfold azimuthLookup
    rw [List.get?_eq_get h]
    rfl
  · intro h
    unfold azimuthLookup
    rw [List.get?_eq_none.mpr h]
    rfl

/-- Witness for claim C4 on a one-element stats list, at the in-range index 0
and the out-of-range index 1. -/
theorem claim_C4_azimuth_lookup_witness :
    (0 < [RoofSegmentStat.mk ⟨0, 0⟩ 180].length ∧
      (azimuthLookup [RoofSegmentStat.mk ⟨0, 0⟩ 180] 0).isSome = true) ∧
      ([RoofSegmentStat.mk ⟨0, 0⟩ 180].length ≤ 1 ∧
        azimuthLookup [RoofSegmentStat.mk ⟨0, 0⟩ 180] 1 = none) :=
  ⟨⟨by decide, (claim_C4_azimuth_lookup [RoofSegmentStat.mk ⟨0, 0⟩ 180] 0).1 (by decide)⟩,
    ⟨by decide, (claim_C4_azimuth_lookup [RoofSegmentStat.mk ⟨0, 0⟩ 180] 1).2 (by decide)⟩⟩

/-! ## Capacity ratio scaling (claim C7) -/

/-- Lines 135-139: `panelCapacityRatio = panelCapacityWatts / defaultPanelCapacity`
where `defaultPanelCapacity = buildingInsights.solarPotential.panelCapacityWatts`. -/
def panelCapacityRatio (panelCapacityWatts defaultPanelCapacity : ℚ) : ℚ :=
  panelCapacityWatts / defaultPanelCapacity

/-- Lines 547-555 (and 406-409): displayed yearly energy
`yearlyEnergyDcKwh * panelCapacityRatio`. -/
def displayedEnergy (rawYield selectedCapacity defaultCapacity : ℚ) : ℚ :=
  rawYield * panelCapacityRatio selectedCapacity defaultCapacity

/-- Claim C7: for every raw yearly yield, default capacity and selected
capacity (default nonzero), the displayed energy equals
`rawYield * (selectedCapacity / defaultCapacity)`; in particular default 250 W,
selected 300 W, raw 1000 kWh yields 1200 kWh. -/
theorem claim_C7_capacity_scaling (raw sel dflt : ℚ) (h : dflt ≠ 0) :
    displayedEnergy raw sel dflt = raw * (sel / dflt) ∧
      displayedEnergy 1000 300 250 = 1200 := by
  constructor
  · rfl
  · unfold displayedEnergy panelCapacityRatio
    norm_num

/-- Witness for claim C7 at the spec's scenario values. -/
theorem claim_C7_capacity_scaling_witness :
    (250 : ℚ) ≠ 0 ∧
      (displayedEnergy 1000 300 250 = 1000 * (300 / 250) ∧
        displayedEnergy 1000 300 250 = 1200) :=
  ⟨by norm_num, claim_C7_capacity_scaling 1000 300 250 (by norm_num)⟩

/-! ## Panel visibility (claim C10) -/

/-- Lines 63-73, the body of `updatePanelVisibility` for panel `i`:
`disableAnimation ? (showPanels ? map : null)
 : (showPanels && panelConfig && i < panelConfig.panelsCount ? map : null)`.
`true` stands for "attached to the map", `false` for detached; the JS
truthiness test on `panelConfig` is the `Option` match. -/
def panelVisible (disableAnimation showPanels : Bool)
    (panelConfig : Option SolarPanelConfig) (i : ℕ) : Bool :=
  if disableAnimation then showPanels
  else
    showPanels &&
      match panelConfig with
      | some c => decide (i < c.panelsCount)
      | none => false

/-- Lines 63-73: `solarPanels.forEach((panel, i) => ...)` — the attachment
state of each rendered panel index. -/
def updatePanelVisibility (panels : List SolarPanel)
    (disableAnimation showPanels : Bool) (panelConfig : Option SolarPanelConfig) :
    List Bool :=
  (List.range panels.length).map fun i =>
    panelVisible disableAnimation showPanels panelConfig i

/-- Claim C10: for every panel index `i` in the rendered list, with animation
disabled the panel is attached iff `showPanels`; with animation enabled and a
selected configuration, it is attached iff `showPanels` and
`i < panelConfig.panelsCount`. -/
theorem claim_C10_panel_visibility (panels : List SolarPanel)
    (dis shw : Bool) (cfg : Option SolarPanelConfig) (i : ℕ)
    (hi : i < panels.length) :
    (updatePanelVisibility panels dis shw cfg).get? i =
        some (panelVisible dis shw cfg i) ∧
      (dis = true → panelVisible dis shw cfg i = shw) ∧
      (dis = false → ∀ c, cfg = some c →
        panelVisible dis shw cfg i = (shw && decide (i < c.panelsCount))) := by
  refine ⟨?_, ?_, ?_⟩
  · unfold updatePanelVisibility
    rw [List.get?_map, List.get?_range hi]
    rfl
  · intro hdis
    unfold panelVisible
    rw [hdis, if_pos rfl]
  · intro hdis c hc
    unfold panelVisible
    rw [hdis, hc]
    simp only [Bool.false_eq_true, if_false]

/-- Witness for claim C10 on a one-panel list with a selected configuration. -/
theorem claim_C10_panel_visibility_witness :
    0 < [SolarPanel.mk ⟨0, 0⟩ .portrait 0 100].length ∧
      ((updatePanelVisibility [SolarPanel.mk ⟨0, 0⟩ .portrait 0 100] false true
            (some ⟨1, 100⟩)).get? 0 =
          some (panelVisible false true (some ⟨1, 100⟩) 0) ∧
        (false = true → panelVisible false true (some ⟨1, 100⟩) 0 = true) ∧
        (false = false → ∀ c, some (SolarPanelConfig.mk 1 100) = some c →
          panelVisible false true (some ⟨1, 100⟩) 0 = (true && decide (0 < c.panelsCount)))) :=
  ⟨by decide,
    claim_C10_panel_visibility [SolarPanel.mk ⟨0, 0⟩ .portrait 0 100] false true
      (some ⟨1, 100⟩) 0 (by decide)⟩

/-! ## Segment visibility filter (claim C5) -/

/-- JavaScript `String.prototype.trim` on the character list of a string:
remove whitespace from both ends. -/
def trimChars (cs : List Char) : List Char :=
  ((cs.dropWhile Char.isWhitespace).reverse.dropWhile Char.isWhitespace).reverse

/-- JavaScript `String.prototype.split(sep)` for a one-character separator:
`"".split(',') = [""]`, `"0,2".split(',') = ["0","2"]`. -/
def splitOnChar (sep : Char) : List Char → List (List Char)
  | [] => [[]]
  | c :: cs =>
    match splitOnChar sep cs, decide (c = sep) with
    | rest, true => [] :: rest
    | [], false => [[c]]
    | r :: rs, false => (c :: r) :: rs

/-- Accumulate the leading decimal digits, stopping at the first non-digit
(JavaScript `parseInt` consumes the longest digit prefix: `"12ab" → 12`). -/
def parseDigitsAux : List Char → ℕ → ℕ
  | [], acc => acc
  | c :: cs, acc =>
    if c.isDigit then parseDigitsAux cs (acc * 10 + (c.toNat - 48)) else acc

/-- The digit prefix of a character list, `none` when it does not start with a
digit. -/
def parseLeadingDigits (cs : List Char) : Option ℕ :=
  match cs with
  | [] => none
  | c :: _ => if c.isDigit then some (parseDigitsAux cs 0) else none

/-- JavaScript `parseInt` (radix 10) on an already-trimmed token: an optional
sign followed by at least one decimal digit; `none` models `NaN`.  (The
automatic radix-16 detection of `parseInt` for `0x`-prefixed strings is not
modelled; no such token occurs in the claims.) -/
def parseIntJS (cs : List Char) : Option ℤ :=
  match cs with
  | '-' :: rest => (parseLeadingDigits rest).map (fun n => -(n : ℤ))
  | '+' :: rest => (parseLeadingDigits rest).map (fun n => (n : ℤ))
  | _ => (parseLeadingDigits cs).map (fun n => (n : ℤ))

/-- Lines 78-80:
`segmentFilter.trim() === "" ? null :
 segmentFilter.split(',').map(s => parseInt(s.trim())).filter(n => !isNaN(n))`.
The map-then-drop-NaN composition is `filterMap`. -/
def parseSegmentNumbers (segmentFilter : String) : Option (List ℤ) :=
  if trimChars segmentFilter.toList = [] then none
  else some ((splitOnChar ',' segmentFilter.toList).filterMap
    (fun tok => parseIntJS (trimChars tok)))

/-- Lines 82-96, the visibility decision for a shape tagged `segmentIndex`:
`showSegments && (segmentNumbers === null || segmentNumbers.includes(segmentIndex))`. -/
def segmentVisible (showSegments : Bool) (segmentFilter : String)
    (segmentIndex : ℤ) : Bool :=
  showSegments &&
    match parseSegmentNumbers segmentFilter with
    | none => true
    | some ns => ns.contains segmentIndex

/-- Counterexample to claim C5: the filter string `"0,2"` parses to the
explicit list `[0, 2]`, yet with the show-segments flag cleared the shape with
segment index `0` is *not* visible — visibility is not independent of the
flag's state. -/
theorem claim_C5_counterexample :
    parseSegmentNumbers "0,2" = some [0, 2] ∧
      segmentVisible false "0,2" 0 = false := by
  constructor
  · rfl
  · rfl

/-- Claim C5 (amended): with the show-segments flag set and an empty filter
string every segment index is visible; when the filter parses to `[0, 2]`,
exactly the shapes with segment index 0 or 2 are visible provided the
show-segments flag is set (none when it is cleared); unparseable tokens in the
comma-separated string are ignored. -/
theorem claim_C5_visibility_filter (f g : String) (sflag : Bool) (ix : ℤ)
    (hEmpty : trimChars f.toList = [])
    (hParse : parseSegmentNumbers g = some [0, 2]) :
    segmentVisible true f ix = true ∧
      segmentVisible sflag g ix = (sflag && (ix == 0 || ix == 2)) ∧
      parseSegmentNumbers "0, foo, 2" = some [0, 2] := by
  refine ⟨?_, ?_, ?_⟩
  · unfold segmentVisible parseSegmentNumbers
    rw [if_pos hEmpty]
    rfl
  · unfold segmentVisible
    rw [hParse]
    cases sflag
    · rfl
    · simp only [Bool.true_and]
      show List.contains [0, 2] ix = (ix == 0 || ix == 2)
      cases h0 : ix == 0 <;> cases h2 : ix == 2 <;>
        simp [List.contains, List.elem, h0, h2]
  · rfl

/-- Witness for the amended claim C5 at `f = ""`, `g = "0,2"`, with the flag
cleared and segment index 5. -/
theorem claim_C5_visibility_filter_witness :
    (trimChars "".toList = [] ∧ parseSegmentNumbers "0,2" = some [0, 2]) ∧
      (segmentVisible true "" 5 = true ∧
        segmentVisible false "0,2" 5 = (false && ((5 : ℤ) == 0 || (5 : ℤ) == 2)) ∧
        parseSegmentNumbers "0, foo, 2" = some [0, 2]) :=
  ⟨⟨rfl, rfl⟩, claim_C5_visibility_filter "" "0,2" false 5 rfl rfl⟩

/-! ## Panel rectangle projection (claim C1) -/

/-- Lines 177-183, the local corner offsets of a panel with half-width `w` and
half-height `h` (meters): top right, bottom right, bottom left, top left, and
the repeated top right closing the ring. -/
def panelLocalPoints (w h : ℚ) : List (ℚ × ℚ) :=
  [(w, h), (w, -h), (-w, -h), (-w, h), (w, h)]

/-- Line 184: `panel.orientation == 'PORTRAIT' ? 90 : 0`. -/
def orientationOffset : Orientation → ℚ
  | .portrait => 90
  | .landscape => 0

/-- Lines 187-194, the projected panel polygon path:
each local corner `(x, y)` is sent to
`computeOffset(center, sqrt(x*x + y*y), atan2(y, x) * (180 / PI) + orientation + azimuth)`. -/
def projectPanelPath (geo : Geo) (w h : ℚ) (center : LatLng)
    (orientationDeg azimuth : ℚ) : List LatLng :=
  (panelLocalPoints w h).map fun p =>
    geo.computeOffset center (geo.sqrt (p.1 * p.1 + p.2 * p.2))
      (geo.atan2 p.2 p.1 * geo.degPerRad + orientationDeg + azimuth)

/-- The point at parameter `t ∈ [0, 1]` of the straight segment from `p` to
`q` in the local meter plane. -/
def seg (p q : ℚ × ℚ) (t : ℚ) : ℚ × ℚ :=
  ((1 - t) * p.1 + t * q.1, (1 - t) * p.2 + t * q.2)

/-- Simplicity of the local corner ring of `panelLocalPoints w h`: the two
pairs of opposite edges are disjoint, and each pair of consecutive edges meets
only at the shared corner (parameters `s = 1`, `t = 0`). -/
def panelRingSimple (w h : ℚ) : Prop :=
  ∀ s t : ℚ, 0 ≤ s → s ≤ 1 → 0 ≤ t → t ≤ 1 →
    (seg (w, h) (w, -h) s ≠ seg (-w, -h) (-w, h) t ∧
      seg (w, -h) (-w, -h) s ≠ seg (-w, h) (w, h) t) ∧
    (seg (w, h) (w, -h) s = seg (w, -h) (-w, -h) t → s = 1 ∧ t = 0) ∧
    (seg (w, -h) (-w, -h) s = seg (-w, -h) (-w, h) t → s = 1 ∧ t = 0) ∧
    (seg (-w, -h) (-w, h) s = seg (-w, h) (w, h) t → s = 1 ∧ t = 0) ∧
    (seg (-w, h) (w, h) s = seg (w, h) (w, -h) t → s = 1 ∧ t = 0)

/-- The property claimed of the projected panel polygon: exactly 5 points,
closed ring (first point equals last), each point obtained by offsetting the
center by `sqrt(x*x + y*y)` at bearing `atan2(y, x)` in degrees plus the
combined rotation, and the ring is simple in the local frame. -/
def panelRingSpec (geo : Geo) (w h : ℚ) (center : LatLng) (o az : ℚ) : Prop :=
  (projectPanelPath geo w h center o az).length = 5 ∧
  (projectPanelPath geo w h center o az).head? =
    (projectPanelPath geo w h center o az).getLast? ∧
  projectPanelPath geo w h center o az =
    (panelLocalPoints w h).map (fun p =>
      geo.computeOffset center (geo.sqrt (p.1 * p.1 + p.2 * p.2))
        (geo.atan2 p.2 p.1 * geo.degPerRad + o + az)) ∧
  panelRingSimple w h

/-- From `x * a = 0` and `a ≠ 0` conclude `x = 0`. -/
theorem mulFactorZero {x a : ℚ} (ha : a ≠ 0) (h : x * a = 0) : x = 0 := by
  rcases mul_eq_zero.mp h with hx | hax
  · exact hx
  · exact absurd hax ha

/-- From `x * a = a` and `a ≠ 0` conclude `x = 1`. -/
theorem mulFactorOne {x a : ℚ} (ha : a ≠ 0) (h : x * a = a) : x = 1 := by
  have h1 : x * a = 1 * a := by linarith
  exact mul_right_cancel₀ ha h1

/-- Claim C1: for every panel the projected rectangle is an ordered sequence
of exactly 5 geographic points forming a closed ring (first equals last), each
point offsets the center by `sqrt(x*x + y*y)` at bearing `atan2(y, x)` in
degrees plus the combined rotation, and for convex rectangular input
(`0 < w`, `0 < h`) the corner ring has no self-intersections in the local
frame. -/
theorem claim_C1_panel_ring (geo : Geo) (w h : ℚ) (center : LatLng) (o az : ℚ)
    (hw : 0 < w) (hh : 0 < h) : panelRingSpec geo w h center o az := by
  refine ⟨rfl, rfl, rfl, ?_⟩
  intro s t _ _ _ _
  refine ⟨⟨?_, ?_⟩, ?_, ?_, ?_, ?_⟩
  · intro heq
    simp only [seg, Prod.mk.injEq] at heq
    obtain ⟨e1, _⟩ := heq
    have h2w : (2 : ℚ) * w = 0 := by linear_combination e1
    linarith
  · intro heq
    simp only [seg, Prod.mk.injEq] at heq
    obtain ⟨_, e2⟩ := heq
    have h2h : (2 : ℚ) * h = 0 := by linear_combination -e2
    linarith
  · intro heq
    simp only [seg, Prod.mk.injEq] at heq
    obtain ⟨e1, e2⟩ := heq
    have ht : t * w = 0 := by linear_combination e1 / 2
    have hs : s * h = h := by linear_combination (-1 / 2 : ℚ) * e2
    exact ⟨mulFactorOne hh.ne' hs, mulFactorZero hw.ne' ht⟩
  · intro heq
    simp only [seg, Prod.mk.injEq] at heq
    obtain ⟨e1, e2⟩ := heq
    have hs : s * w = w := by linear_combination (-1 / 2 : ℚ) * e1
    have ht : t * h = 0 := by linear_combination (-1 / 2 : ℚ) * e2
    exact ⟨mulFactorOne hw.ne' hs, mulFactorZero hh.ne' ht⟩
  · intro heq
    simp only [seg, Prod.mk.injEq] at heq
    obtain ⟨e1, e2⟩ := heq
    have ht : t * w = 0 := by linear_combination (-1 / 2 : ℚ) * e1
    have hs : s * h = h := by linear_combination e2 / 2
    exact ⟨mulFactorOne hh.ne' hs, mulFactorZero hw.ne' ht⟩
  · intro heq
    simp only [seg, Prod.mk.injEq] at heq
    obtain ⟨e1, e2⟩ := heq
    have hs : s * w = w := by linear_combination e1 / 2
    have ht : t * h = 0 := by linear_combination e2 / 2
    exact ⟨mulFactorOne hw.ne' hs, mulFactorZero hh.ne' ht⟩

/-- Witness for claim C1 at half-extents `w = h = 1` with the trivial
interpretation of the external primitives. -/
theorem claim_C1_panel_ring_witness :
    ((0 : ℚ) < 1 ∧ (0 : ℚ) < 1) ∧ panelRingSpec trivGeo 1 1 ⟨0, 0⟩ 0 0 :=
  ⟨⟨by norm_num, by norm_num⟩,
    claim_C1_panel_ring trivGeo 1 1 ⟨0, 0⟩ 0 0 (by norm_num) (by norm_num)⟩

/-! ## Segment bounding box (claim C2) -/

/-- An axis-aligned bounding box in the roof-local meter plane
(the `minX` / `maxX` / `minY` / `maxY` variables of lines 267-301). -/
structure Box where
  minX : ℚ
  maxX : ℚ
  minY : ℚ
  maxY : ℚ
deriving DecidableEq, Repr

/-- Lines 267-274: the tight bounding box of the local points.  The source
folds `Math.min` / `Math.max` starting from `±Infinity` over all points; on a
non-empty list this equals folding from the first point, which is how the
infinities are modelled here. -/
def rawBounds (ps : List (ℚ × ℚ)) : Box :=
  match ps with
  | [] => ⟨0, 0, 0, 0⟩
  | p :: rest =>
    rest.foldl (fun b q => ⟨min b.minX q.1, max b.maxX q.1, min b.minY q.2, max b.maxY q.2⟩)
      ⟨p.1, p.1, p.2, p.2⟩

/-- Lines 281-288: expand the box by 10 % of each axis extent on both sides. -/
def padBox (b : Box) : Box :=
  ⟨b.minX - (b.maxX - b.minX) * (1 / 10), b.maxX + (b.maxX - b.minX) * (1 / 10),
    b.minY - (b.maxY - b.minY) * (1 / 10), b.maxY + (b.maxY - b.minY) * (1 / 10)⟩

/-- Line 291: `const minSize = 2.0` (meters). -/
def minSize : ℚ := 2

/-- Lines 292-296: if the X extent falls below `minSize`, recenter and clamp
it to exactly `minSize`. -/
def clampBoxX (b : Box) : Box :=
  if b.maxX - b.minX < minSize then
    ⟨(b.maxX + b.minX) / 2 - minSize / 2, (b.maxX + b.minX) / 2 + minSize / 2, b.minY, b.maxY⟩
  else b

/-- Lines 297-301: the same clamping for the Y axis, performed after the X
clamp. -/
def clampBoxY (b : Box) : Box :=
  if b.maxY - b.minY < minSize then
    ⟨b.minX, b.maxX, (b.maxY + b.minY) / 2 - minSize / 2, (b.maxY + b.minY) / 2 + minSize / 2⟩
  else b

/-- Lines 292-301 combined: the two sequential per-axis clamps. -/
def clampBox (b : Box) : Box := clampBoxY (clampBoxX b)

/-- Lines 267-301 end to end: pad the raw bounding box and clamp it to the
minimum size. -/
def segmentBox (ps : List (ℚ × ℚ)) : Box := clampBox (padBox (rawBounds ps))

theorem clampBoxY_minX (b : Box) : (clampBoxY b).minX = b.minX := by
  unfold clampBoxY; split_ifs <;> rfl

theorem clampBoxY_maxX (b : Box) : (clampBoxY b).maxX = b.maxX := by
  unfold clampBoxY; split_ifs <;> rfl

theorem clampBoxX_minY (b : Box) : (clampBoxX b).minY = b.minY := by
  unfold clampBoxX; split_ifs <;> rfl

theorem clampBoxX_maxY (b : Box) : (clampBoxX b).maxY = b.maxY := by
  unfold clampBoxX; split_ifs <;> rfl

theorem clampBoxX_extent (b : Box) :
    minSize ≤ (clampBoxX b).maxX - (clampBoxX b).minX := by
  unfold clampBoxX minSize
  split_ifs with h1
  · simp only
    ring_nf
    norm_num
  · simp only [minSize] at h1
    linarith [not_lt.mp h1]

theorem clampBoxY_extent (b : Box) :
    minSize ≤ (clampBoxY b).maxY - (clampBoxY b).minY := by
  unfold clampBoxY minSize
  split_ifs with h1
  · simp only
    ring_nf
    norm_num
  · simp only [minSize] at h1
    linarith [not_lt.mp h1]

theorem padBox_extentX (b : Box) :
    (padBox b).maxX - (padBox b).minX = (12 / 10) * (b.maxX - b.minX) := by
  unfold padBox; ring

theorem padBox_extentY (b : Box) :
    (padBox b).maxY - (padBox b).minY = (12 / 10) * (b.maxY - b.minY) := by
  unfold padBox; ring

/-- The property claimed of the padded and clamped bounding box of a point
list: extent at least `minSize` on both axes, and at least `1.2` times the raw
extent on each axis whose raw extent exceeds `minSize`. -/
def segmentBoxSpec (pts : List (ℚ × ℚ)) : Prop :=
  (minSize ≤ (segmentBox pts).maxX - (segmentBox pts).minX ∧
    minSize ≤ (segmentBox pts).maxY - (segmentBox pts).minY) ∧
  (minSize < (rawBounds pts).maxX - (rawBounds pts).minX →
    (12 / 10) * ((rawBounds pts).maxX - (rawBounds pts).minX) ≤
      (segmentBox pts).maxX - (segmentBox pts).minX) ∧
  (minSize < (rawBounds pts).maxY - (rawBounds pts).minY →
    (12 / 10) * ((rawBounds pts).maxY - (rawBounds pts).minY) ≤
      (segmentBox pts).maxY - (segmentBox pts).minY)

/-- Claim C2: for every non-empty list of member-panel local points, the
segment bounding box after 10 % per-side padding and minimum-size clamping has
extent at least `minSize = 2` meters on each axis, and whenever the raw extent
on an axis exceeds `minSize`, the final extent on that axis is at least `1.2`
times the raw extent. -/
theorem claim_C2_segment_box (p : ℚ × ℚ) (ps : List (ℚ × ℚ)) :
    segmentBoxSpec (p :: ps) := by
  set b := rawBounds (p :: ps) with hb
  have hXfix : (segmentBox (p :: ps)).maxX - (segmentBox (p :: ps)).minX =
      (clampBoxX (padBox b)).maxX - (clampBoxX (padBox b)).minX := by
    unfold segmentBox clampBox
    rw [clampBoxY_maxX, clampBoxY_minX, hb]
  have hYinner : (clampBoxX (padBox b)).maxY - (clampBoxX (padBox b)).minY =
      (padBox b).maxY - (padBox b).minY := by
    rw [clampBoxX_maxY, clampBoxX_minY]
  refine ⟨⟨?_, ?_⟩, ?_, ?_⟩
  · rw [hXfix]
    exact clampBoxX_extent (padBox b)
  · unfold segmentBox clampBox
    exact clampBoxY_extent (clampBoxX (padBox b))
  · intro hraw
    rw [hXfix]
    have hpad : (padBox b).maxX - (padBox b).minX = (12 / 10) * (b.maxX - b.minX) :=
      padBox_extentX b
    have hbig : ¬ ((padBox b).maxX - (padBox b).minX < minSize) := by
      rw [hpad]
      unfold minSize at hraw ⊢
      push_neg
      nlinarith
    unfold clampBoxX
    rw [if_neg hbig, hpad]
  · intro hraw
    have hpad : (padBox b).maxY - (padBox b).minY = (12 / 10) * (b.maxY - b.minY) :=
      padBox_extentY b
    have hbig : ¬ ((clampBoxX (padBox b)).maxY - (clampBoxX (padBox b)).minY < minSize) := by
      rw [hYinner, hpad]
      unfold minSize at hraw ⊢
      push_neg
      nlinarith
    unfold segmentBox clampBox clampBoxY
    rw [if_neg hbig, hYinner, hpad]

/-- Witness for claim C2 on the points `(0,0)` and `(3,4)`, whose raw extents
3 and 4 both exceed `minSize`. -/
theorem claim_C2_segment_box_witness :
    (minSize < (rawBounds [(0, 0), (3, 4)]).maxX - (rawBounds [(0, 0), (3, 4)]).minX ∧
      minSize < (rawBounds [(0, 0), (3, 4)]).maxY - (rawBounds [(0, 0), (3, 4)]).minY) ∧
      segmentBoxSpec [(0, 0), (3, 4)] :=
  ⟨⟨by norm_num [rawBounds, minSize], by norm_num [rawBounds, minSize]⟩,
    claim_C2_segment_box (0, 0) [(3, 4)]⟩

/-! ## Roof segment polygons (claim C6) -/

/-- Lines 205-214: the keys of the `Map<number, SolarPanel[]>` built by
`segmentPanels`, in first-insertion order. -/
def segmentKeys (panels : List SolarPanel) : List ℕ :=
  panels.foldl
    (fun acc p => if p.segmentIndex ∈ acc then acc else acc ++ [p.segmentIndex]) []

/-- Lines 205-211: the `segmentPanels` map as an association list — each key
with the member panels pushed for it, in order. -/
def segmentGroups (panels : List SolarPanel) : List (ℕ × List SolarPanel) :=
  (segmentKeys panels).map fun k => (k, panels.filter (fun p => p.segmentIndex == k))

/-- Lines 245-264: each member panel's position converted to roof-local
`(x, y)` meter coordinates relative to the segment center:
`x = distance * sin(radians)`, `y = distance * cos(radians)` with
`radians = (heading - azimuth) * PI / 180`. -/
def segmentRelativePositions (geo : Geo) (center : LatLng) (azimuth : ℚ)
    (panels : List SolarPanel) : List (ℚ × ℚ) :=
  panels.map fun panel =>
    let bearing := geo.computeHeading center panel.center
    let distance := geo.computeDistanceBetween center panel.center
    let radians := (bearing - azimuth) * geo.radPerDeg
    (distance * geo.sin radians, distance * geo.cos radians)

/-- Lines 304-309: the four box corners in the fixed winding order bottom
left, bottom right, top right, top left (an open 4-point ring). -/
def boxCorners (b : Box) : List (ℚ × ℚ) :=
  [(b.minX, b.minY), (b.maxX, b.minY), (b.maxX, b.maxY), (b.minX, b.maxY)]

/-- Lines 312-327: re-project each corner back to geographic coordinates with
`computeOffset(center, sqrt(x*x + y*y), atan2(x, y) * (180 / PI) + azimuth)`
(note the swapped `atan2(x, y)`, unlike the panel path). -/
def segmentPolygonPath (geo : Geo) (center : LatLng) (azimuth : ℚ)
    (rel : List (ℚ × ℚ)) : List LatLng :=
  (boxCorners (segmentBox rel)).map fun c =>
    geo.computeOffset center (geo.sqrt (c.1 * c.1 + c.2 * c.2))
      (geo.atan2 c.1 c.2 * geo.degPerRad + azimuth)

/-- Lines 217-235 for one group `(segmentIndex, panels)`: look up the segment
info (unguarded indexing in the source, `Option` here), and emit the tagged
polygon only when `panelPositions.length > 0`. -/
def entryOfGroup (geo : Geo) (sp : SolarPotential) (kps : ℕ × List SolarPanel) :
    Option (ℕ × List LatLng) :=
  match sp.roofSegmentStats.get? kps.1 with
  | none => none
  | some segmentInfo =>
    if 0 < (kps.2.map (fun p => p.center)).length then
      some (kps.1,
        segmentPolygonPath geo segmentInfo.center segmentInfo.azimuthDegrees
          (segmentRelativePositions geo segmentInfo.center segmentInfo.azimuthDegrees kps.2))
    else none

/-- `roofSegmentPolygons.push(segmentPolygon)` guarded by the branch outcome:
append the entry when one was produced. -/
def pushOpt {β : Type} (acc : List β) (e : Option β) : List β :=
  match e with
  | some y => acc ++ [y]
  | none => acc

/-- Lines 217-366: `segmentPanels.forEach(...)` — the list of emitted segment
polygons (each paired with the segment index stored on it; the marker label
pushed alongside carries the same index, so the entry stands for both). -/
def roofSegmentEntries (geo : Geo) (sp : SolarPotential) : List (ℕ × List LatLng) :=
  (segmentGroups sp.solarPanels).foldl
    (fun acc kps => pushOpt acc (entryOfGroup geo sp kps)) []

theorem foldlOptAppend {α β : Type} (f : α → Option β) :
    ∀ (l : List α) (acc : List β),
      l.foldl (fun a x => pushOpt a (f x)) acc = acc ++ l.filterMap f := by
  intro l
  induction l with
  | nil => intro acc; simp
  | cons x xs ih =>
    intro acc
    simp only [List.foldl_cons, List.filterMap_cons]
    cases hfx : f x with
    | none => exact ih acc
    | some y =>
      have h1 : pushOpt acc (some y) = acc ++ [y] := rfl
      rw [h1, ih, List.append_assoc, List.singleton_append]

theorem mem_segmentKeysAux (panels : List SolarPanel) :
    ∀ (acc : List ℕ) (k : ℕ),
      (k ∈ panels.foldl
          (fun acc p => if p.segmentIndex ∈ acc then acc else acc ++ [p.segmentIndex]) acc) ↔
        k ∈ acc ∨ ∃ p ∈ panels, p.segmentIndex = k := by
  induction panels with
  | nil =>
    intro acc k
    simp
  | cons q qs ih =>
    intro acc k
    simp only [List.foldl_cons]
    by_cases hq : q.segmentIndex ∈ acc
    · rw [if_pos hq, ih]
      constructor
      · rintro (h | ⟨p, hp, hpk⟩)
        · exact Or.inl h
        · exact Or.inr ⟨p, List.mem_cons_of_mem q hp, hpk⟩
      · rintro (h | ⟨p, hp, hpk⟩)
        · exact Or.inl h
        · rcases List.mem_cons.mp hp with rfl | hp2
          · exact Or.inl (hpk ▸ hq)
          · exact Or.inr ⟨p, hp2, hpk⟩
    · rw [if_neg hq, ih]
      constructor
      · rintro (h | ⟨p, hp, hpk⟩)
        · rcases List.mem_append.mp h with h2 | h2
          · exact Or.inl h2
          · exact Or.inr ⟨q, List.mem_cons_self q qs, (List.mem_singleton.mp h2).symm⟩
        · exact Or.inr ⟨p, List.mem_cons_of_mem q hp, hpk⟩
      · rintro (h | ⟨p, hp, hpk⟩)
        · exact Or.inl (List.mem_append.mpr (Or.inl h))
        · rcases List.mem_cons.mp hp with rfl | hp2
          · exact Or.inl (List.mem_append.mpr (Or.inr (List.mem_singleton.mpr hpk.symm)))
          · exact Or.inr ⟨p, hp2, hpk⟩

theorem nodup_segmentKeysAux (panels : List SolarPanel) :
    ∀ acc : List ℕ, acc.Nodup →
      (panels.foldl
          (fun acc p => if p.segmentIndex ∈ acc then acc else acc ++ [p.segmentIndex]) acc).Nodup := by
  induction panels with
  | nil =>
    intro acc h
    simpa using h
  | cons q qs ih =>
    intro acc h
    simp only [List.foldl_cons]
    by_cases hq : q.segmentIndex ∈ acc
    · rw [if_pos hq]
      exact ih acc h
    · rw [if_neg hq]
      refine ih _ (h.append (List.nodup_singleton _) ?_)
      intro b hb hbx
      rcases List.mem_singleton.mp hbx with rfl
      exact hq hb

theorem filterMapKeysFst {β : Type} (fk : ℕ → Option (ℕ × β)) :
    ∀ keys : List ℕ, (∀ k ∈ keys, ∃ v, fk k = some (k, v)) →
      (keys.filterMap fk).map Prod.fst = keys := by
  intro keys
  induction keys with
  | nil =>
    intro _
    simp
  | cons k ks ih =>
    intro hall
    obtain ⟨v, hv⟩ := hall k (List.mem_cons_self k ks)
    simp only [List.filterMap_cons, hv, List.map_cons]
    rw [ih (fun k2 hk2 => hall k2 (List.mem_cons_of_mem _ hk2))]

/-- The property claimed of the emitted segment polygons: the tags are
duplicate-free, and a tag occurs iff some panel belongs to that segment —
exactly one polygon (and label) per inhabited segment, none for an empty one,
and no error branch is reached. -/
def segmentEntriesSpec (geo : Geo) (sp : SolarPotential) : Prop :=
  ((roofSegmentEntries geo sp).map Prod.fst).Nodup ∧
  (∀ ix : ℕ, ix ∈ (roofSegmentEntries geo sp).map Prod.fst ↔
    ∃ p ∈ sp.solarPanels, p.segmentIndex = ix)

/-- Claim C6: under the segment-index invariant, every segment with an empty
member-panel set produces no bounding polygon and no label (and no error),
while every segment with at least one panel produces exactly one polygon. -/
theorem claim_C6_segment_polygons (geo : Geo) (sp : SolarPotential)
    (hvalid : ∀ p ∈ sp.solarPanels, p.segmentIndex < sp.roofSegmentStats.length) :
    segmentEntriesSpec geo sp := by
  have hmemkeys : ∀ k, k ∈ segmentKeys sp.solarPanels ↔
      ∃ p ∈ sp.solarPanels, p.segmentIndex = k := by
    intro k
    unfold segmentKeys
    rw [mem_segmentKeysAux sp.solarPanels [] k]
    simp
  have hsome : ∀ k ∈ segmentKeys sp.solarPanels,
      ∃ v, entryOfGroup geo sp (k, sp.solarPanels.filter (fun p => p.segmentIndex == k)) =
        some (k, v) := by
    intro k hk
    obtain ⟨p, hp, hpk⟩ := (hmemkeys k).mp hk
    have hklen : k < sp.roofSegmentStats.length := hpk ▸ hvalid p hp
    obtain ⟨st, hst⟩ : ∃ st, sp.roofSegmentStats.get? k = some st :=
      ⟨_, List.get?_eq_get hklen⟩
    have hfilter : p ∈ sp.solarPanels.filter (fun p => p.segmentIndex == k) := by
      rw [List.mem_filter]
      exact ⟨hp, by simp [hpk]⟩
    have hlen : 0 <
        ((sp.solarPanels.filter (fun p => p.segmentIndex == k)).map (fun p => p.center)).length := by
      rw [List.length_map]
      exact List.length_pos.mpr (List.ne_nil_of_mem hfilter)
    refine ⟨segmentPolygonPath geo st.center st.azimuthDegrees
      (segmentRelativePositions geo st.center st.azimuthDegrees
        (sp.solarPanels.filter (fun p => p.segmentIndex == k))), ?_⟩
    unfold entryOfGroup
    simp only [hst]
    rw [if_pos hlen]
  have hfst : (roofSegmentEntries geo sp).map Prod.fst = segmentKeys sp.solarPanels := by
    unfold roofSegmentEntries
    rw [foldlOptAppend (entryOfGroup geo sp) (segmentGroups sp.solarPanels) [],
      List.nil_append]
    unfold segmentGroups
    rw [List.filterMap_map]
    exact filterMapKeysFst _ (segmentKeys sp.solarPanels) hsome
  constructor
  · rw [hfst]
    unfold segmentKeys
    exact nodup_segmentKeysAux sp.solarPanels [] List.nodup_nil
  · intro ix
    rw [hfst]
    exact hmemkeys ix

/-- A small concrete building-insights value used by witnesses: one panel in
segment 0, one roof segment stat. -/
def samplePotential : SolarPotential where
  panelWidthMeters := 1
  panelHeightMeters := 2
  panelCapacityWatts := 250
  solarPanels := [⟨⟨1, 1⟩, .landscape, 0, 100⟩]
  roofSegmentStats := [⟨⟨0, 0⟩, 90⟩]
  solarPanelConfigs := [⟨1, 100⟩]

/-- Witness for claim C6 on `samplePotential`, whose single panel has a valid
segment index. -/
theorem claim_C6_segment_polygons_witness :
    (∀ p ∈ samplePotential.solarPanels,
        p.segmentIndex < samplePotential.roofSegmentStats.length) ∧
      segmentEntriesSpec trivGeo samplePotential :=
  ⟨by decide, claim_C6_segment_polygons trivGeo samplePotential (by decide)⟩

/-! ## Panel rendering after a successful fetch (claim C9) -/

/-- Lines 170-201 of `showSolarPotential`, the per-panel render pass after a
successful fetch.  Line 173 reads
`solarPotential.solarPanels.slice(-1)[0].yearlyEnergyDcKwh` and line 174
`solarPotential.solarPanels[0].yearlyEnergyDcKwh` with no emptiness guard: on
an empty panel list `slice(-1)[0]` is `undefined` and the field access throws
a `TypeError`; that error path is the `none` branch here.  Each panel's
unguarded azimuth lookup likewise contributes its `Option`. -/
def renderSolarPanels (geo : Geo) (sp : SolarPotential) :
    Option (List (List LatLng × ℤ)) :=
  match sp.solarPanels.getLast?, sp.solarPanels.head? with
  | some lastPanel, some firstPanel =>
    sp.solarPanels.mapM fun panel =>
      (azimuthLookup sp.roofSegmentStats panel.segmentIndex).map fun azimuth =>
        (projectPanelPath geo (sp.panelWidthMeters / 2) (sp.panelHeightMeters / 2)
            panel.center (orientationOffset panel.orientation) azimuth,
          colorIndex panel.yearlyEnergyDcKwh firstPanel.yearlyEnergyDcKwh
            lastPanel.yearlyEnergyDcKwh)
  | _, _ => none

/-- A successfully fetched building-insights value whose building has zero
solar panels — the geometric edge case named by the claim. -/
def zeroPanelsPotential : SolarPotential where
  panelWidthMeters := 1
  panelHeightMeters := 2
  panelCapacityWatts := 250
  solarPanels := []
  roofSegmentStats := [⟨⟨0, 0⟩, 0⟩]
  solarPanelConfigs := [⟨0, 0⟩]

/-- Claim C9 fails on the code: on a fetched response with zero solar panels
the render pass reaches the error branch (`solarPanels.slice(-1)[0]` is
`undefined` and `.yearlyEnergyDcKwh` throws), instead of degrading gracefully
as the spec intends. -/
theorem claim_C9_zero_panels_crash :
    zeroPanelsPotential.solarPanels = [] ∧
      renderSolarPanels trivGeo zeroPanelsPotential = none :=
  ⟨rfl, rfl⟩

/-! ## At most one in-flight fetch (claim C8) -/

/-- The component-instance state touched by `showSolarPotential`
(lines 52-58, 125-133, 141-168): the `requestSent` flag, the rendered shape
lists, the last response and error, plus an `inFlight` counter counting the
fetches currently outstanding (not a source variable; it counts awaited
`findClosestBuilding` calls so that the at-most-one property can be stated). -/
structure CompState where
  requestSent : Bool
  inFlight : ℕ
  buildingInsights : Option SolarPotential
  requestError : Option RequestError
  solarPanels : List (List LatLng × ℤ)
  roofSegmentPolygons : List (ℕ × List LatLng)
deriving DecidableEq, Repr

/-- The events driving `showSolarPotential`: an invocation of the entry point,
and the resolution or failure of the awaited fetch. -/
inductive FetchEvent where
  | invoke
  | resolve (b : SolarPotential)
  | fail (e : RequestError)

/-- The component's initial state (lines 52-58, 125-133). -/
def initState : CompState where
  requestSent := false
  inFlight := 0
  buildingInsights := none
  requestError := none
  solarPanels := []
  roofSegmentPolygons := []

/-- Lines 141-162: invoking `showSolarPotential`.  If `requestSent` is set the
call returns immediately (state unchanged); otherwise it clears the response,
the error and all shapes, sets `requestSent` and issues the fetch. -/
def stepInvoke (s : CompState) : CompState :=
  if s.requestSent then s
  else
    { s with
      requestSent := true
      inFlight := s.inFlight + 1
      buildingInsights := none
      requestError := none
      solarPanels := []
      roofSegmentPolygons := [] }

/-- Lines 162-372: the awaited fetch resolves.  The `finally` block clears
`requestSent`, the response is stored and the shapes are rendered; when the
render pass throws (see `renderSolarPanels`), the exception propagates after
the flag was already cleared and the shapes stay cleared.  A resolution can
only arrive for an outstanding fetch (`inFlight ≠ 0`). -/
def stepResolve (geo : Geo) (b : SolarPotential) (s : CompState) : CompState :=
  if s.inFlight = 0 then s
  else
    match renderSolarPanels geo b with
    | some shapes =>
      { s with
        requestSent := false
        inFlight := s.inFlight - 1
        buildingInsights := some b
        solarPanels := shapes
        roofSegmentPolygons := roofSegmentEntries geo b }
    | none =>
      { s with
        requestSent := false
        inFlight := s.inFlight - 1
        buildingInsights := some b }

/-- Lines 163-168: the awaited fetch fails; the `catch` block records the
error and returns, the `finally` block clears `requestSent`. -/
def stepFail (e : RequestError) (s : CompState) : CompState :=
  if s.inFlight = 0 then s
  else
    { s with
      requestSent := false
      inFlight := s.inFlight - 1
      requestError := some e }

/-- The step relation of the component. -/
def step (geo : Geo) (e : FetchEvent) (s : CompState) : CompState :=
  match e with
  | .invoke => stepInvoke s
  | .resolve b => stepResolve geo b s
  | .fail err => stepFail err s

/-- The state reached from `initState` by a sequence of events. -/
def run (geo : Geo) (events : List FetchEvent) : CompState :=
  events.foldl (fun s e => step geo e s) initState

/-- The inductive invariant: at most one fetch is outstanding, and the
`requestSent` flag is set exactly while one is. -/
def stateInv (s : CompState) : Prop :=
  s.inFlight ≤ 1 ∧ (s.requestSent = true ↔ s.inFlight = 1)

theorem stateInv_init : stateInv initState := by
  constructor <;> simp [initState]

theorem stateInv_step (geo : Geo) (e : FetchEvent) (s : CompState)
    (h : stateInv s) : stateInv (step geo e s) := by
  obtain ⟨h1, h2⟩ := h
  cases e with
  | invoke =>
    show stateInv (stepInvoke s)
    unfold stepInvoke
    cases hsr : s.requestSent
    · have hne : s.inFlight ≠ 1 := by
        intro hif
        rw [h2.mpr hif] at hsr
        exact Bool.true_eq_false.mp hsr
      have h0 : s.inFlight = 0 := by omega
      rw [if_neg (by simp [hsr])]
      constructor
      · show s.inFlight + 1 ≤ 1
        omega
      · show true = true ↔ s.inFlight + 1 = 1
        constructor
        · intro _
          omega
        · intro _
          rfl
    · rw [if_pos rfl]
      exact ⟨h1, h2⟩
  | resolve b =>
    show stateInv (stepResolve geo b s)
    unfold stepResolve
    by_cases hz : s.inFlight = 0
    · rw [if_pos hz]
      exact ⟨h1, h2⟩
    · rw [if_neg hz]
      have h0 : s.inFlight = 1 := by omega
      cases renderSolarPanels geo b
      · constructor
        · show s.inFlight - 1 ≤ 1
          omega
        · show false = true ↔ s.inFlight - 1 = 1
          constructor
          · intro hc
            exact absurd hc (by simp)
          · intro hc
            omega
      · constructor
        · show s.inFlight - 1 ≤ 1
          omega
        · show false = true ↔ s.inFlight - 1 = 1
          constructor
          · intro hc
            exact absurd hc (by simp)
          · intro hc
            omega
  | fail err =>
    show stateInv (stepFail err s)
    unfold stepFail
    by_cases hz : s.inFlight = 0
    · rw [if_pos hz]
      exact ⟨h1, h2⟩
    · rw [if_neg hz]
      have h0 : s.inFlight = 1 := by omega
      constructor
      · show s.inFlight - 1 ≤ 1
        omega
      · show false = true ↔ s.inFlight - 1 = 1
        constructor
        · intro hc
          exact absurd hc (by simp)
        · intro hc
          omega

/-- The property claimed of every reachable state: at most one fetch is in
flight; while the flag is set, invoking the entry point is a no-op (no shapes
cleared, no fetch issued); resolution and failure of an outstanding fetch
clear the flag. -/
def atMostOneFetchSpec (geo : Geo) (s : CompState) : Prop :=
  s.inFlight ≤ 1 ∧
  (s.requestSent = true → stepInvoke s = s) ∧
  (∀ b : SolarPotential, s.inFlight ≠ 0 → (stepResolve geo b s).requestSent = false) ∧
  (∀ e : RequestError, s.inFlight ≠ 0 → (stepFail e s).requestSent = false)

/-- Claim C8: along every event sequence from the initial state, at most one
building-insights fetch is in flight; further invocations while the flag is
set return immediately without clearing shapes or issuing a fetch, and the
flag is cleared when the fetch resolves or fails. -/
theorem claim_C8_single_fetch (geo : Geo) (events : List FetchEvent) :
    atMostOneFetchSpec geo (run geo events) := by
  have hinv : stateInv (run geo events) := by
    unfold run
    have hall : ∀ (l : List FetchEvent) (s : CompState), stateInv s →
        stateInv (l.foldl (fun s e => step geo e s) s) := by
      intro l
      induction l with
      | nil => intro s hs; exact hs
      | cons e es ih =>
        intro s hs
        exact ih _ (stateInv_step geo e s hs)
    exact hall events initState stateInv_init
  obtain ⟨h1, _⟩ := hinv
  refine ⟨h1, ?_, ?_, ?_⟩
  · intro hr
    unfold stepInvoke
    rw [if_pos hr]
  · intro b hz
    unfold stepResolve
    rw [if_neg hz]
    cases renderSolarPanels geo b
    · rfl
    · rfl
  · intro e hz
    unfold stepFail
    rw [if_neg hz]

/-- Witness for claim C8 after a single invocation: the flag is set and the
spec holds at the reached state. -/
theorem claim_C8_single_fetch_witness :
    (run trivGeo [FetchEvent.invoke]).requestSent = true ∧
      atMostOneFetchSpec trivGeo (run trivGeo [FetchEvent.invoke]) :=
  ⟨rfl, claim_C8_single_fetch trivGeo [FetchEvent.invoke]⟩

end BuildingInsightsSection
